import Mathlib

/-
Verification of the argen example parsers.

This file gives a shallow embedding of the two argument parsers of the
repository:

  * parse_args of src/examples/example.c, which drives GNU getopt_long
    over the option table longopts and the short option string "b:qh",
    then distributes the remaining tokens over the positional slots
    out_file, in_file and the variadic words slot, and

  * populate_args of src/examples/simple_gen.c, a hand written loop over
    argv recognizing the tokens --int_arg and --char_arg.

C int values are modelled as their 32 bit patterns (Nat below 2^32);
out parameters that the C code writes only conditionally are modelled as
Option values, none meaning that the callee never wrote the location and
the caller keeps its original (uninitialized) contents.

The behaviour of getopt_long itself (GNU libc, default permuting mode) is
embedded directly: long tokens are matched exactly against the table
names and otherwise by unique prefix; a required argument comes from the
text after the first equals sign or from the next token; non option
tokens are collected in order; the token -- ends option scanning.  Every
path on which getopt_long returns a question mark lands in the shared
switch arm (case h and default) of parse_args, which prints the usage
text and calls exit(1); that shared arm is the usageExit outcome below.
The later exit(1) at the argc - optind < 1 check (missing first
positional) is the distinct missingPositional outcome, a different exit
site of parse_args.
-/

namespace Argen

/-- Value of a decimal digit run, C atoi style: stop at the first
character that is not a digit. -/
def digitsVal : List Char → Nat → Nat
  | [], acc => acc
  | c :: cs, acc => if c.isDigit then digitsVal cs (acc * 10 + (c.toNat - 48)) else acc

/-- Skip the leading white space accepted by C atoi. -/
def skipSpace : List Char → List Char
  | [] => []
  | c :: cs =>
    if c = ' ' ∨ c = '\t' ∨ c = '\n' ∨ c = '\r' then skipSpace cs else c :: cs

/-- Signed value read by C atoi after white space skipping. -/
def atoiCore : List Char → Int
  | '-' :: cs => - (Int.ofNat (digitsVal cs 0))
  | '+' :: cs => Int.ofNat (digitsVal cs 0)
  | cs => Int.ofNat (digitsVal cs 0)

/-- C atoi, with the resulting int stored as its 32 bit pattern. -/
def atoi (s : String) : Nat :=
  ((atoiCore (skipSpace s.toList)).emod 4294967296).toNat

/-- One row of the longopts table of example.c: the long name, whether
the option takes a required argument, and the value the getopt_long call
returns for it (the case label of the switch). -/
structure LongEntry where
  name : List Char
  hasArg : Bool
  val : Nat
deriving DecidableEq, Repr

/-- The longopts table of example.c (lines 35 to 42). -/
def longopts : List LongEntry :=
  [⟨"block-size".toList, true, 98⟩,
   ⟨"fav-number".toList, true, 33⟩,
   ⟨"quiet".toList, false, 113⟩,
   ⟨"name".toList, true, 68⟩,
   ⟨"help".toList, false, 104⟩]

/-- GNU long option lookup: an exact name match wins; otherwise a unique
proper prefix matches; no match or an ambiguous prefix makes getopt_long
return a question mark, modelled as none. -/
def matchLong (nm : List Char) : Option LongEntry :=
  match longopts.find? (fun e => e.name = nm) with
  | some e => some e
  | none =>
    match longopts.filter (fun e => List.isPrefixOf nm e.name) with
    | [e] => some e
    | _ => none

/-- Split a long option body at the first equals sign, GNU style. -/
def splitEqChars : List Char → List Char × Option (List Char)
  | [] => ([], none)
  | c :: cs =>
    if c = '=' then ([], some cs)
    else
      match splitEqChars cs with
      | (n, v) => (c :: n, v)

/-- The four conditionally written option outputs of parse_args in
example.c, each none until the matching switch arm runs.  The isset
flags of the C code coincide with these options being some, since value
and flag are always written together. -/
structure ScanState where
  block_size : Option Nat
  fave_number : Option Nat
  quiet : Option Nat
  username : Option String
deriving DecidableEq, Repr

/-- Result of working through one short option cluster (a token of the
form -xyz) against the short option string b colon q h. -/
inductive ShortRes where
  | exit
  | done (st : ScanState)
  | needsNext (st : ScanState)
deriving DecidableEq, Repr

/-- Process the characters of a short option cluster.  b takes the rest
of the cluster as its argument, or the next token when the cluster ends;
q sets quiet; h and every unknown character make getopt_long return h or
a question mark, both of which reach the shared usage and exit arm. -/
def shortScan (st : ScanState) : List Char → ShortRes
  | [] => .done st
  | c :: cs =>
    if c = 'b' then
      match cs with
      | [] => .needsNext st
      | _ :: _ => .done { st with block_size := some (atoi (String.mk cs)) }
    else if c = 'q' then
      shortScan { st with quiet := some 1 } cs
    else
      .exit

/-- Outcome of the getopt_long driven while loop of parse_args: either
the loop finishes (getopt_long returned minus one) leaving the final
option state and the permuted non option tokens, or some iteration took
the shared usage and exit arm. -/
inductive ScanOutcome where
  | usageExit
  | done (st : ScanState) (rem : List String)
deriving DecidableEq, Repr

/-- State update for the switch arms that receive a required argument:
case 98 writes block_size via atoi, case 33 writes fave_number via atoi,
case 68 writes username. -/
def applyReq (st : ScanState) (code : Nat) (optarg : String) : ScanState :=
  if code = 98 then { st with block_size := some (atoi optarg) }
  else if code = 33 then { st with fave_number := some (atoi optarg) }
  else if code = 68 then { st with username := some optarg }
  else st

/-- The getopt_long while loop of example.c in permuting mode: options
are handled left to right, non option tokens are collected in original
order for positional distribution, a lone -- ends the scan, and every
error path of getopt_long reaches the usage and exit arm. -/
def scan (st : ScanState) (acc : List String) : List String → ScanOutcome
  | [] => .done st acc.reverse
  | tok :: rest =>
    match tok.toList with
    | '-' :: '-' :: [] => .done st (acc.reverse ++ rest)
    | '-' :: '-' :: body =>
      match splitEqChars body with
      | (nm, veq) =>
        match matchLong nm with
        | none => .usageExit
        | some e =>
          match e.hasArg, veq with
          | true, some v => scan (applyReq st e.val (String.mk v)) acc rest
          | true, none =>
            match rest with
            | [] => .usageExit
            | v :: rest2 => scan (applyReq st e.val v) acc rest2
          | false, some _ => .usageExit
          | false, none =>
            if e.val = 104 then .usageExit
            else scan { st with quiet := some 1 } acc rest
    | '-' :: [] => scan st (tok :: acc) rest
    | '-' :: c :: cl =>
      match shortScan st (c :: cl) with
      | .exit => .usageExit
      | .done st2 => scan st2 acc rest
      | .needsNext st2 =>
        match rest with
        | [] => .usageExit
        | v :: rest2 => scan { st2 with block_size := some (atoi v) } acc rest2
    | _ => scan st (tok :: acc) rest

/-- The out parameters of parse_args after a successful return.  The
fields block_size, fave_number and username are always written (user
value or the default applied at lines 69 to 77); quiet, in_file and
words are written only on the paths that assign them, hence Option. -/
structure Bindings where
  block_size : Nat
  fave_number : Nat
  quiet : Option Nat
  username : String
  out_file : String
  in_file : Option String
  words : Option (List String)
deriving DecidableEq, Repr

/-- The three exits of parse_args: a normal return with all writes done,
the shared usage and exit arm inside the option loop (taken for -h,
--help, unknown options, missing or forbidden option arguments), and the
usage and exit site after the option loop when no token is left for the
first positional slot out_file. -/
inductive ParseResult where
  | ok (b : Bindings)
  | usageExit
  | missingPositional
deriving DecidableEq, Repr

/-- Declared default of block-size (line 32 of example.c). -/
def block_size__default : Nat := 12

/-- Declared default of fav-number (line 33 of example.c). -/
def fave_number__default : Nat := 0xDEADBEEF

/-- Declared default of name (line 34 of example.c). -/
def username__default : String := "John Smith"

/-- Empty option state before the getopt_long loop starts. -/
def initState : ScanState := ⟨none, none, none, none⟩

/-- Shallow embedding of parse_args of example.c over the user supplied
argument vector (argv without the program name): run the getopt_long
loop, apply the declared defaults to the options never set, then fill
out_file, optionally in_file, and the words slot from the remaining
tokens. -/
def parse_args (args : List String) : ParseResult :=
  match scan initState [] args with
  | .usageExit => .usageExit
  | .done st rem =>
    match rem with
    | [] => .missingPositional
    | outf :: rest1 =>
      .ok { block_size := st.block_size.getD block_size__default
            fave_number := st.fave_number.getD fave_number__default
            quiet := st.quiet
            username := st.username.getD username__default
            out_file := outf
            in_file := rest1.head?
            words := if rest1.tail = [] then none else some rest1.tail }

/-- The three out parameters of populate_args in simple_gen.c.  They are
uninitialized locals of main, so each is none until the loop writes it;
int values are stored as their 32 bit patterns and char_arg holds the
first byte of the token after --char_arg. -/
structure PState where
  int_arg : Option Nat
  char_arg : Option Char
  np_arg : Option Nat
deriving DecidableEq, Repr

/-- The loop body of populate_args, running over the suffix of argv that
starts at index i (the loop begins at i = 1).  When argv at i is
--int_arg or --char_arg the code reads argv at i + 1; when i + 1 equals
argc that read yields the null sentinel that hosted C places after the
last argument, and atoi respectively the index zero dereference then
crashes on the null pointer, modelled as the error outcome.  The loop
advances i by exactly one in every iteration, so a consumed value token
is examined again by the next iteration. -/
def popLoop (st : PState) : List String → Except Unit PState
  | [] => .ok st
  | tok :: rest =>
    if tok = "--int_arg" then
      match rest with
      | [] => .error ()
      | v :: _ => popLoop { st with int_arg := some (atoi v) } rest
    else if tok = "--char_arg" then
      match rest with
      | [] => .error ()
      | v :: _ => popLoop { st with char_arg := some (v.toList.headD (Char.ofNat 0)) } rest
    else
      popLoop { st with np_arg := some (atoi tok) } rest

/-- Shallow embedding of populate_args of simple_gen.c, over the full
argv vector including the program name at index zero (the loop starts at
index one). -/
def populate_args (argv : List String) : Except Unit PState :=
  popLoop ⟨none, none, none⟩ (argv.drop 1)

/-- Claim C1, counterexample.  Parsing the single positional token
out.txt succeeds, the three value taking options receive their declared
defaults, but the flag option quiet is left unassigned: the result field
quiet is none, the record of the fact that parse_args never writes the
quiet out parameter when -q and --quiet are absent (the defaulting block
at lines 69 to 77 of example.c covers block_size, fave_number and
username only).  This refutes the claim that an unsupplied flag option
is bound to unset or false and that no declared option is left undefined
in the result. -/
theorem quiet_left_unassigned_cex :
    parse_args ["out.txt"] =
      ParseResult.ok ⟨12, 0xDEADBEEF, none, "John Smith", "out.txt", none, none⟩ ∧
    (⟨12, 0xDEADBEEF, none, "John Smith", "out.txt", none, none⟩ : Bindings).quiet = none :=
  ⟨rfl, rfl⟩

/-- Claim C1, amended: after every successful parse the value taking
options are always bound, to the value of the last user supplied
occurrence or else to their declared defaults (block-size 12,
fav-number 0xDEADBEEF, name John Smith), while the flag option quiet is
passed through exactly as the scan left it, so it stays unassigned when
the user never supplied it. -/
theorem parse_args_defaults_law (args : List String) (st : ScanState) (rem : List String)
    (B : Bindings) (hscan : scan initState [] args = ScanOutcome.done st rem)
    (hok : parse_args args = ParseResult.ok B) :
    B.block_size = st.block_size.getD block_size__default ∧
    B.fave_number = st.fave_number.getD fave_number__default ∧
    B.username = st.username.getD username__default ∧
    B.quiet = st.quiet := by
  unfold parse_args at hok
  rw [hscan] at hok
  cases rem with
  | nil => simp at hok
  | cons outf rest1 =>
    simp only [ParseResult.ok.injEq] at hok
    subst hok
    exact ⟨rfl, rfl, rfl, rfl⟩

/-- Claim C1, witness for the amended defaulting law at the input with
the tokens -q and out.txt. -/
theorem parse_args_defaults_law_wit :
    (⟨12, 0xDEADBEEF, some 1, "John Smith", "out.txt", none, none⟩ : Bindings).block_size
      = (⟨none, none, some 1, none⟩ : ScanState).block_size.getD block_size__default ∧
    (⟨12, 0xDEADBEEF, some 1, "John Smith", "out.txt", none, none⟩ : Bindings).fave_number
      = (⟨none, none, some 1, none⟩ : ScanState).fave_number.getD fave_number__default ∧
    (⟨12, 0xDEADBEEF, some 1, "John Smith", "out.txt", none, none⟩ : Bindings).username
      = (⟨none, none, some 1, none⟩ : ScanState).username.getD username__default ∧
    (⟨12, 0xDEADBEEF, some 1, "John Smith", "out.txt", none, none⟩ : Bindings).quiet
      = (⟨none, none, some 1, none⟩ : ScanState).quiet :=
  parse_args_defaults_law ["-q", "out.txt"] ⟨none, none, some 1, none⟩ ["out.txt"]
    ⟨12, 0xDEADBEEF, some 1, "John Smith", "out.txt", none, none⟩ rfl rfl

/-- Claim C2: the empty argument vector yields the missing positional
exit of parse_args (the usage and exit site after the option loop, taken
because no token is available for the first fixed slot out_file), not a
crash and not a Bindings value built from defaults. -/
theorem parse_args_empty_missing_positional :
    parse_args [] = ParseResult.missingPositional := rfl

/-- Claim C3, counterexample.  The token -h and the unknown option token
--bogus-option produce the same outcome of parse_args, because case h
and the default case of the switch in example.c share one arm that
prints the usage text and calls exit(1).  This refutes the part of the
claim that the help outcome is distinct from every parse error outcome
and in particular from the unknown option outcome. -/
theorem help_same_outcome_as_unknown_cex :
    parse_args ["-h"] = ParseResult.usageExit ∧
    parse_args ["--bogus-option"] = ParseResult.usageExit ∧
    parse_args ["-h"] = parse_args ["--bogus-option"] :=
  ⟨rfl, rfl, rfl⟩

/-- Claim C3, amended: as soon as the scan recognizes -h or --help it
stops immediately with the usage and exit outcome, from any option state
and any set of already collected positional tokens, independently of all
later tokens; no further token is scanned, no default is applied and no
validation runs, but the outcome is the shared usage and exit arm, the
same outcome an unknown option produces, not a distinguished help
outcome. -/
theorem help_short_circuits (st : ScanState) (acc : List String) (rest : List String) :
    scan st acc ("-h" :: rest) = ScanOutcome.usageExit ∧
    scan st acc ("--help" :: rest) = ScanOutcome.usageExit :=
  ⟨rfl, rfl⟩

/-- Claim C3, witness for the amended short circuit law at the empty
scan state. -/
theorem help_short_circuits_wit :
    scan initState [] ["-h"] = ScanOutcome.usageExit ∧
    scan initState [] ["--help"] = ScanOutcome.usageExit :=
  help_short_circuits initState [] []

/-- Claim C4: the scenario input binds block-size to 20, leaves quiet
unset, fills out_file with out.txt and in_file with in.txt, and captures
the two leftover tokens foo and bar, in order, in the words slot; the
options never supplied keep their declared defaults. -/
theorem parse_args_scenario_b20 :
    parse_args ["-b", "20", "out.txt", "in.txt", "foo", "bar"] =
      ParseResult.ok
        ⟨20, 0xDEADBEEF, none, "John Smith", "out.txt", some "in.txt", some ["foo", "bar"]⟩ :=
  rfl

/-- Claim C5, counterexample.  With no token left after the fixed slots,
parse_args succeeds but leaves the words slot unassigned: the result
field words is none because the writes to words and words__size sit
under the guard argc greater than zero (lines 94 to 97 of example.c).
This refutes the part of the claim that zero remaining tokens yield a
well defined empty sequence of size zero. -/
theorem words_left_unassigned_cex :
    parse_args ["out.txt", "in.txt"] =
      ParseResult.ok ⟨12, 0xDEADBEEF, none, "John Smith", "out.txt", some "in.txt", none⟩ ∧
    (⟨12, 0xDEADBEEF, none, "John Smith", "out.txt", some "in.txt", none⟩ : Bindings).words
      = none :=
  ⟨rfl, rfl⟩

/-- Claim C5, amended: on every successful parse the first remaining
token fills out_file, the second, when present, fills in_file, and the
words slot receives exactly the tokens left after those fixed slots, in
their original order, whenever at least one such token remains; when
zero tokens remain the parse still succeeds but words and words__size
are left unassigned rather than set to an empty sequence. -/
theorem variadic_leftover_law (args : List String) (st : ScanState) (outf : String)
    (rest1 : List String) (B : Bindings)
    (hscan : scan initState [] args = ScanOutcome.done st (outf :: rest1))
    (hok : parse_args args = ParseResult.ok B) :
    B.out_file = outf ∧
    B.in_file = rest1.head? ∧
    B.words = (if rest1.tail = [] then none else some rest1.tail) := by
  unfold parse_args at hok
  rw [hscan] at hok
  simp only [ParseResult.ok.injEq] at hok
  subst hok
  exact ⟨rfl, rfl, rfl⟩

/-- Claim C5, witness for the amended leftover law at an input with two
leftover tokens after the fixed slots. -/
theorem variadic_leftover_law_wit :
    (⟨12, 0xDEADBEEF, none, "John Smith", "o", some "i", some ["x", "y"]⟩ : Bindings).out_file
      = "o" ∧
    (⟨12, 0xDEADBEEF, none, "John Smith", "o", some "i", some ["x", "y"]⟩ : Bindings).in_file
      = ["i", "x", "y"].head? ∧
    (⟨12, 0xDEADBEEF, none, "John Smith", "o", some "i", some ["x", "y"]⟩ : Bindings).words
      = (if ["i", "x", "y"].tail = [] then none else some ["i", "x", "y"].tail) :=
  variadic_leftover_law ["o", "i", "x", "y"] initState "o" ["i", "x", "y"]
    ⟨12, 0xDEADBEEF, none, "John Smith", "o", some "i", some ["x", "y"]⟩ rfl rfl

/-- Claim C6: for each value taking option of example.c (block-size,
fav-number, name), attaching the value after an equals sign and passing
it as the separate next token give the same scan continuation from every
option state and every collected token list, and hence the same parse
outcome and bindings; stated both at the level of the scan, which covers
an occurrence at any position of the vector, and at the level of
parse_args. -/
theorem eq_form_sep_form_agree (v : String) (rest : List String) (st : ScanState)
    (acc : List String) :
    (scan st acc (("--block-size=" ++ v) :: rest) = scan st acc ("--block-size" :: v :: rest)) ∧
    (scan st acc (("--fav-number=" ++ v) :: rest) = scan st acc ("--fav-number" :: v :: rest)) ∧
    (scan st acc (("--name=" ++ v) :: rest) = scan st acc ("--name" :: v :: rest)) ∧
    (parse_args (("--block-size=" ++ v) :: rest) = parse_args ("--block-size" :: v :: rest)) ∧
    (parse_args (("--fav-number=" ++ v) :: rest) = parse_args ("--fav-number" :: v :: rest)) ∧
    (parse_args (("--name=" ++ v) :: rest) = parse_args ("--name" :: v :: rest)) := by
  obtain ⟨vl⟩ := v
  exact ⟨rfl, rfl, rfl, rfl, rfl, rfl⟩

/-- Claim C6, witness at the value 20 and the tail with the single
positional token o. -/
theorem eq_form_sep_form_agree_wit :
    (scan initState [] ["--block-size=20", "o"] = scan initState [] ["--block-size", "20", "o"]) ∧
    (scan initState [] ["--fav-number=20", "o"] = scan initState [] ["--fav-number", "20", "o"]) ∧
    (scan initState [] ["--name=20", "o"] = scan initState [] ["--name", "20", "o"]) ∧
    (parse_args ["--block-size=20", "o"] = parse_args ["--block-size", "20", "o"]) ∧
    (parse_args ["--fav-number=20", "o"] = parse_args ["--fav-number", "20", "o"]) ∧
    (parse_args ["--name=20", "o"] = parse_args ["--name", "20", "o"]) :=
  eq_form_sep_form_agree "20" ["o"] initState []

/-- Claim C7: the usage text of example.c documents --blocksize and --bs
as aliases of --block-size, but the longopts table has no row for either
spelling, and neither is a prefix of any table name, so getopt_long
rejects both and parse_args takes the usage and exit arm, while the
canonical spelling --block-size parses and binds 20; evaluation of the
code at the failing inputs for the code bug verdict. -/
theorem alias_not_in_longopts :
    parse_args ["--blocksize", "20", "out.txt"] = ParseResult.usageExit ∧
    parse_args ["--bs", "20", "out.txt"] = ParseResult.usageExit ∧
    parse_args ["--block-size", "20", "out.txt"] =
      ParseResult.ok ⟨20, 0xDEADBEEF, none, "John Smith", "out.txt", none, none⟩ :=
  ⟨rfl, rfl, rfl⟩

/-- Claim C8: with no fav-number input the successful parse binds
fav-number to its declared default 0xDEADBEEF, with an explicit
user supplied 0 it binds 0, and the two results are distinguishable
because the declared default differs from zero. -/
theorem fav_number_default_distinguishable :
    parse_args ["out.txt"] =
      ParseResult.ok ⟨12, 0xDEADBEEF, none, "John Smith", "out.txt", none, none⟩ ∧
    parse_args ["--fav-number", "0", "out.txt"] =
      ParseResult.ok ⟨12, 0, none, "John Smith", "out.txt", none, none⟩ ∧
    parse_args ["out.txt"] ≠ parse_args ["--fav-number", "0", "out.txt"] :=
  ⟨rfl, rfl, by decide⟩

/-- Claim C9: evaluation of populate_args at the failing inputs for the
code bug verdict.  When --int_arg or --char_arg is the last token of
argv, the loop body reads argv at index argc, the null sentinel slot,
and dereferences the null pointer through atoi respectively through the
index zero access, modelled as the error outcome; so the access to the
token after the option name is not in bounds in that case. -/
theorem populate_args_reads_past_end :
    populate_args ["prog", "--int_arg"] = Except.error () ∧
    populate_args ["prog", "a", "--char_arg"] = Except.error () :=
  ⟨rfl, rfl⟩

/-- Claim C10: evaluation of populate_args at the failing input for the
code bug verdict.  The loop never skips the value token it just
consumed, so in prog 5 --int_arg 7 the token 7 is first taken as the
value of --int_arg and then reexamined as a positional candidate,
overwriting np_arg from 5, the intended positional value, to 7. -/
theorem populate_args_value_token_reclassified :
    populate_args ["prog", "5", "--int_arg", "7"] = Except.ok ⟨some 7, none, some 7⟩ ∧
    populate_args ["prog", "5"] = Except.ok ⟨none, none, some 5⟩ :=
  ⟨rfl, rfl⟩

end Argen

